import Mathlib

/-!
Verification development for the trading-assistant chat core.

Source files embedded here:
* `src/unnamed/part_000` — the chat widget (`ChatInterface`): the
  session-switch intent regex and `handleSendMessage`, plus the
  session-summary serverless function (statistics, prompt, completion call).
* `src/supabase/functions/ai-chat/index.ts` — the chat serverless function:
  data fetch, prompt context, statistics and the completion call.

The JS regex `/(?:load|switch to|open)\s+(?:the\s+)?(.+?)(?:\s+session)?$/i`
is embedded as an executable backtracking matcher specialised to exactly
this pattern, with JS semantics for `\s`, `.` (no line terminators),
case-insensitive comparison, greedy/lazy quantifiers and optional groups,
and leftmost scanning of the subject string.
-/

namespace LCF

/-- JS `\s` (also the set removed by `String.prototype.trim`): space, tab,
line terminators and the Unicode space separators. -/
def jsWs (c : Char) : Bool :=
  c == ' ' || c == '\t' || c == '\n' || c == '\x0b' || c == '\x0c' || c == '\r' ||
  c == '\u00a0' || c == '\u1680' ||
  (decide (0x2000 ≤ c.toNat) && decide (c.toNat ≤ 0x200a)) ||
  c == '\u2028' || c == '\u2029' || c == '\u202f' || c == '\u205f' ||
  c == '\u3000' || c == '\ufeff'

/-- JS `.` without the `s` flag: any character except a line terminator. -/
def dotChar (c : Char) : Bool :=
  !(c == '\n' || c == '\r' || c == '\u2028' || c == '\u2029')

/-- ASCII lower-casing, enough for the `i` flag on this ASCII pattern. -/
def lcChar (c : Char) : Char :=
  if 65 ≤ c.toNat ∧ c.toNat ≤ 90 then Char.ofNat (c.toNat + 32) else c

/-- Case-insensitively, is the pattern `p` a prefix of `s`? -/
def ciStarts : List Char → List Char → Bool
  | [], _ => true
  | _ :: _, [] => false
  | p :: ps, c :: cs => (lcChar c == lcChar p) && ciStarts ps cs

/-- Case-insensitive equality of character lists. -/
def ciEqL : List Char → List Char → Bool
  | [], [] => true
  | p :: ps, c :: cs => (lcChar c == lcChar p) && ciEqL ps cs
  | _, _ => false

def loadWord : List Char := "load".data

def switchToWord : List Char := "switch to".data

def openWord : List Char := "open".data

def theWord : List Char := "the".data

def sessionWord : List Char := "session".data

/-- Length of the maximal `\s`-prefix. -/
def wsCount : List Char → Nat
  | [] => 0
  | c :: cs => if jsWs c then wsCount cs + 1 else 0

/-- Does `t` match `\s+session$` case-insensitively (the whole of `t`)?
Since `session` starts with a non-space character the split point is
forced, so no backtracking order is observable here. -/
def wsSessionEnd (t : List Char) : Bool :=
  decide (8 ≤ t.length) && (t.take (t.length - 7)).all jsWs &&
    ciEqL sessionWord (t.drop (t.length - 7))

/-- The tail `(.+?)(?:\s+session)?$` of the pattern: lazily grow the
capture group one dot-character at a time and stop at the first point
where the remainder is empty or is `\s+session` to the end.  Returns the
capture group. -/
def lazyDot (pre : List Char) : List Char → Option (List Char)
  | [] => none
  | c :: rest =>
    if dotChar c then
      if rest.isEmpty || wsSessionEnd rest then some (pre ++ [c])
      else lazyDot (pre ++ [c]) rest
    else none

/-- Greedy `\s+` of the optional `(?:the\s+)?` group: try the longest
whitespace run first, backtracking down to one character. -/
def tryB (r : List Char) : Nat → Option (List Char)
  | 0 => none
  | b + 1 =>
    match lazyDot [] (r.drop (b + 1)) with
    | some g => some g
    | none => tryB r b

/-- The optional `(?:the\s+)?` group: greedy, so the alternative that
consumes `the` plus whitespace is tried before the empty alternative. -/
def tryOpt (r : List Char) : Option (List Char) :=
  match (if ciStarts theWord r then tryB (r.drop 3) (wsCount (r.drop 3)) else none) with
  | some g => some g
  | none => lazyDot [] r

/-- Greedy `\s+` directly after the verb: longest run first, backtracking
down to one character; each choice continues with the optional group. -/
def tryA (r0 : List Char) : Nat → Option (List Char)
  | 0 => none
  | a + 1 =>
    match tryOpt (r0.drop (a + 1)) with
    | some g => some g
    | none => tryA r0 a

/-- The verb alternation `(?:load|switch to|open)` at the current
position.  The three alternatives begin with distinct letters, so at most
one can match and the JS left-to-right alternative order is not
observable. -/
def verbAt (s : List Char) : Option (List Char) :=
  if ciStarts loadWord s then some (s.drop 4)
  else if ciStarts switchToWord s then some (s.drop 9)
  else if ciStarts openWord s then some (s.drop 4)
  else none

/-- One anchored attempt of the full pattern at the current position. -/
def attemptAt (s : List Char) : Option (List Char) :=
  match verbAt s with
  | some r0 => tryA r0 (wsCount r0)
  | none => none

/-- `String.prototype.match`: scan start positions left to right and
return the first position where the whole pattern matches; the result is
capture group 1. -/
def classifyAux : List Char → Option (List Char)
  | [] => none
  | c :: cs =>
    match attemptAt (c :: cs) with
    | some g => some g
    | none => classifyAux cs

/-- `String.prototype.trim` on a character list. -/
def jsTrimL (l : List Char) : List Char :=
  List.reverse (List.dropWhile jsWs (List.reverse (List.dropWhile jsWs l)))

/-- `String.prototype.trim`. -/
def jsTrim (s : String) : String :=
  String.mk (jsTrimL s.data)

/-- `message.match(/(?:load|switch to|open)\s+(?:the\s+)?(.+?)(?:\s+session)?$/i)`
followed by `[1].trim()` (src/unnamed/part_000 lines 69 and 71): the
extracted session name, or `none` when the pattern does not match. -/
def extractNameStr (s : String) : Option String :=
  (classifyAux s.data).map (fun g => String.mk (jsTrimL g))

/-! ## The chat widget turn (src/unnamed/part_000, `handleSendMessage`) -/

/-- One transcript entry (role and content; ids and timestamps are
ambient UI data not touched by any claim). -/
structure ChatMsg where
  role : String
  content : String
deriving DecidableEq

def roleUser : String := "user"

def roleAssistant : String := "assistant"

def roleSystem : String := "system"

/-- The acknowledgement text of src/unnamed/part_000 line 77, split around
the interpolated name. -/
def ackPre : String := "I\x27ll switch you to the \""

def ackPost : String := "\" session. Let me find that for you!"

def ackMessage (name : String) : String :=
  ackPre ++ name ++ ackPost

/-- Observable outcome of one `handleSendMessage` call: the messages
appended to the transcript this turn, the arguments passed to the
`onSessionSwitch` callback, whether `aiService.sendChatMessage` was
invoked, and whether the error toast was shown. -/
structure SendResult where
  appended : List ChatMsg
  switchCalls : List String
  backendCalled : Bool
  toastShown : Bool
deriving DecidableEq

/-- `handleSendMessage` (src/unnamed/part_000 lines 52-105).  `hasUser`
models the `user` object being present, `isLoading` the in-flight flag,
`hasCallback` whether the optional `onSessionSwitch` prop was provided,
and `backend` the chat backend call resolving with a reply (`some`) or
throwing (`none`). -/
def handleSendMessage (input : String) (hasUser : Bool) (isLoading : Bool)
    (hasCallback : Bool) (backend : Option String) : SendResult :=
  if (jsTrim input).data = [] ∨ hasUser = false ∨ isLoading = true then
    ⟨[], [], false, false⟩
  else
    match extractNameStr (jsTrim input), hasCallback with
    | some name, true =>
      ⟨[⟨roleUser, jsTrim input⟩, ⟨roleAssistant, ackMessage name⟩], [name], false, false⟩
    | _, _ =>
      match backend with
      | some text => ⟨[⟨roleUser, jsTrim input⟩, ⟨roleAssistant, text⟩], [], true, false⟩
      | none => ⟨[⟨roleUser, jsTrim input⟩], [], true, true⟩

/-! ## Data model (tables behind the two serverless functions) -/

/-- A `trades` row (the `Trade` interface of
src/supabase/functions/ai-chat/index.ts lines 15-24).  `created_at` is a
timestamp, abstracted to a `Nat` ordering key. -/
structure Trade where
  id : String
  session_id : String
  margin : ℚ
  roi : ℚ
  entry_side : String
  profit_loss : ℚ
  comments : Option String
  created_at : Nat
deriving DecidableEq

/-- A `trading_sessions` row (the `TradingSession` interface of
src/supabase/functions/ai-chat/index.ts lines 26-34). -/
structure TradingSession where
  id : String
  user_id : String
  name : String
  initial_capital : ℚ
  current_capital : ℚ
  created_at : Nat
  updated_at : Nat
deriving DecidableEq

/-- The relational store both functions read through the Supabase
client. -/
structure Db where
  sessions : List TradingSession
  trades : List Trade
deriving DecidableEq

/-- Insertion step of the store's `order(created_at, ascending: false)`. -/
def insertDesc {α : Type} (key : α → Nat) (x : α) : List α → List α
  | [] => [x]
  | y :: ys => if key y ≤ key x then x :: y :: ys else y :: insertDesc key x ys

/-- The store's `order(created_at, ascending: false)` clause: a stable
sort by the key, descending. -/
def sortDesc {α : Type} (key : α → Nat) : List α → List α
  | [] => []
  | x :: xs => insertDesc key x (sortDesc key xs)

/-- The chat function's sessions query (index.ts lines 50-54): all
`trading_sessions` rows with `user_id = userId`, before ordering. -/
def userSessions (db : Db) (uid : String) : List TradingSession :=
  db.sessions.filter (fun s => s.user_id == uid)

/-- The chat function's sessions query with its `created_at` descending
order applied. -/
def fetchSessions (db : Db) (uid : String) : List TradingSession :=
  sortDesc TradingSession.created_at (userSessions db uid)

/-- The chat function's trades query (index.ts lines 61-68): `trades`
inner-joined to `trading_sessions` and filtered to
`trading_sessions.user_id = userId`, before ordering. -/
def userTrades (db : Db) (uid : String) : List Trade :=
  db.trades.filter
    (fun t => db.sessions.any (fun s => s.id == t.session_id && s.user_id == uid))

/-- The chat function's trades query with its `created_at` descending
order applied. -/
def fetchTrades (db : Db) (uid : String) : List Trade :=
  sortDesc Trade.created_at (userTrades db uid)

/-- `trade.profit_loss > 0` (index.ts line 86, part_000 line 348). -/
def isWin (t : Trade) : Bool := decide (0 < t.profit_loss)

/-- `trade.profit_loss < 0` (index.ts line 87, part_000 line 349). -/
def isLoss (t : Trade) : Bool := decide (t.profit_loss < 0)

/-- The values interpolated into the chat `systemPrompt` (index.ts lines
76-115): the counts and statistics computed over the full fetched
collections and the `slice(0, 5)` / `slice(0, 10)` excerpts displayed as
recent examples. -/
structure ChatPromptData where
  totalSessions : Nat
  totalTrades : Nat
  totalProfit : ℚ
  winningTrades : Nat
  losingTrades : Nat
  winRate : ℚ
  recentSessions : List TradingSession
  recentTrades : List Trade
deriving DecidableEq

/-- Builds the chat prompt context (index.ts lines 76-101).  The
statistics reduce/filter over the entire fetched `trades` array; only
`recentSessions`/`recentTrades` are truncated.  The JS conditional
`trades?.length ? (winningTrades / trades.length) * 100 : 0` is the
explicit zero-count branch. -/
def buildChatPromptData (db : Db) (uid : String) : ChatPromptData :=
  let sessions := fetchSessions db uid
  let trades := fetchTrades db uid
  let winning := (trades.filter isWin).length
  let losing := (trades.filter isLoss).length
  ⟨sessions.length, trades.length,
    (trades.map Trade.profit_loss).sum,
    winning, losing,
    if trades.length = 0 then 0 else ((winning : ℚ) / (trades.length : ℚ)) * 100,
    sessions.take 5, trades.take 10⟩

/-- The session statistics of the summary function (src/unnamed/part_000
lines 346-352), in source order: totalTrades, totalProfit, winningTrades,
losingTrades, winRate, totalMargin, avgROI. -/
structure SessionStats where
  totalTrades : Nat
  totalProfit : ℚ
  winningTrades : Nat
  losingTrades : Nat
  winRate : ℚ
  totalMargin : ℚ
  avgROI : ℚ
deriving DecidableEq

/-- `sessionStatsOf trades` computes the seven statistics exactly as
part_000 lines 346-352 do; the two JS conditionals
`totalTrades ? _ : 0` are the explicit zero-count branches for
`winRate` and `avgROI`. -/
def sessionStatsOf (trades : List Trade) : SessionStats :=
  let totalTrades := trades.length
  let winning := (trades.filter isWin).length
  let losing := (trades.filter isLoss).length
  ⟨totalTrades,
    (trades.map Trade.profit_loss).sum,
    winning, losing,
    if totalTrades = 0 then 0 else ((winning : ℚ) / (totalTrades : ℚ)) * 100,
    (trades.map Trade.margin).sum,
    if totalTrades = 0 then 0 else (trades.map Trade.roi).sum / (totalTrades : ℚ)⟩

/-! ## Completion requests and the two endpoint handlers -/

def modelName : String := "gpt-4o-mini"

/-- The request body of the chat turn (index.ts lines 128-136): system
and user messages, `max_tokens: 1000`, `temperature: 0.7`. -/
structure CompletionRequest where
  model : String
  messages : List ChatMsg
  max_tokens : Nat
  temperature : ℚ
deriving DecidableEq

def chatCompletionRequest (systemContent userContent : String) : CompletionRequest :=
  ⟨modelName, [⟨roleSystem, systemContent⟩, ⟨roleUser, userContent⟩], 1000, 7 / 10⟩

/-- The request body of the summary generator (part_000 lines 395-402):
a single system message, `max_tokens: 800`, `temperature: 0.7`. -/
def summaryCompletionRequest (systemContent : String) : CompletionRequest :=
  ⟨modelName, [⟨roleSystem, systemContent⟩], 800, 7 / 10⟩

/-- The completion backend as seen by a handler: a 2xx reply whose
`choices[0]?.message?.content` may be missing, or a non-2xx status. -/
inductive BackendReply where
  | ok (content : Option String)
  | httpErr (code : Nat)
deriving DecidableEq

def chatGenericError : String := "Failed to process chat request"

def summaryGenericError : String := "Failed to generate session summary"

def keyMissingMsg : String := "OpenAI API key not configured"

def sessionNotFoundMsg : String := "Session not found"

def chatFallback : String := "Sorry, I could not process your request."

def summaryFallback : String := "Unable to generate summary."

def apiFailPre : String := "OpenAI API request failed: "

def apiFailMsg (code : Nat) : String := apiFailPre ++ toString code

/-- The name of the environment credential read at index.ts line 117 and
part_000 line 384. -/
def envKeyName : String := "OPENAI_API_KEY"

/-- Is `p` a contiguous substring of the second list? -/
def containsSub (p : List Char) : List Char → Bool
  | [] => p.isEmpty
  | c :: rest => p.isPrefixOf (c :: rest) || containsSub p rest

/-- Observable outcome of the chat endpoint: the prompt context it
builds, the HTTP status, the success body (`message`) or error body
(`error`/`details`), and whether the OpenAI endpoint was contacted. -/
structure ChatOutcome where
  prompt : ChatPromptData
  status : Nat
  message : Option String
  error : Option String
  details : Option String
  backendCalled : Bool
deriving DecidableEq

/-- The chat endpoint handler (index.ts lines 36-171).  `sid` is the
request's optional `sessionId`, destructured at line 47 and never used
afterwards; `apiKey` is the `OPENAI_API_KEY` environment read.  Thrown
errors become the catch handler's 500 response with a fixed `error`
string and the thrown message as `details`. -/
def chatHandler (msg : String) (sid : Option String) (uid : String) (db : Db)
    (apiKey : Option String) (backend : BackendReply) : ChatOutcome :=
  let prompt := buildChatPromptData db uid
  match apiKey with
  | none => ⟨prompt, 500, none, some chatGenericError, some keyMissingMsg, false⟩
  | some _ =>
    match backend with
    | BackendReply.httpErr code =>
      ⟨prompt, 500, none, some chatGenericError, some (apiFailMsg code), true⟩
    | BackendReply.ok (some text) => ⟨prompt, 200, some text, none, none, true⟩
    | BackendReply.ok none => ⟨prompt, 200, some chatFallback, none, none, true⟩

/-- The summary function's session lookup (part_000 lines 321-331):
`trading_sessions` filtered by `id = sessionId` and `user_id = userId`. -/
def lookupSession (db : Db) (sid uid : String) : Option TradingSession :=
  db.sessions.find? (fun s => s.id == sid && s.user_id == uid)

/-- The summary function's trades query (part_000 lines 334-338): the
session's trades, `created_at` descending. -/
def sessionTrades (db : Db) (sid : String) : List Trade :=
  sortDesc Trade.created_at (db.trades.filter (fun t => t.session_id == sid))

/-- Observable outcome of the summary endpoint. -/
structure SummaryOutcome where
  stats : Option SessionStats
  status : Nat
  summary : Option String
  error : Option String
  details : Option String
  backendCalled : Bool
deriving DecidableEq

/-- The summary endpoint handler (part_000 lines 307-437): session
lookup, statistics, the `OPENAI_API_KEY` check, then the completion
call; every thrown error becomes the catch handler's 500 response. -/
def summaryHandler (sid uid : String) (db : Db) (apiKey : Option String)
    (backend : BackendReply) : SummaryOutcome :=
  match lookupSession db sid uid with
  | none => ⟨none, 500, none, some summaryGenericError, some sessionNotFoundMsg, false⟩
  | some _ =>
    let stats := sessionStatsOf (sessionTrades db sid)
    match apiKey with
    | none => ⟨some stats, 500, none, some summaryGenericError, some keyMissingMsg, false⟩
    | some _ =>
      match backend with
      | BackendReply.httpErr code =>
        ⟨some stats, 500, none, some summaryGenericError, some (apiFailMsg code), true⟩
      | BackendReply.ok (some text) => ⟨some stats, 200, some text, none, none, true⟩
      | BackendReply.ok none => ⟨some stats, 200, some summaryFallback, none, none, true⟩

/-! ## Helper lemmas -/

lemma insertDesc_perm {α : Type} (key : α → Nat) (x : α) (l : List α) :
    List.Perm (insertDesc key x l) (x :: l) := by
  induction l with
  | nil => exact List.Perm.refl _
  | cons y ys ih =>
    unfold insertDesc
    by_cases h : key y ≤ key x
    · rw [if_pos h]
    · rw [if_neg h]
      exact (List.Perm.cons y ih).trans (List.Perm.swap x y ys)

lemma sortDesc_perm {α : Type} (key : α → Nat) (l : List α) :
    List.Perm (sortDesc key l) l := by
  induction l with
  | nil => exact List.Perm.refl _
  | cons x xs ih =>
    exact (insertDesc_perm key x (sortDesc key xs)).trans (List.Perm.cons x ih)

lemma mem_insertDesc {α : Type} (key : α → Nat) (x a : α) (l : List α)
    (h : a ∈ insertDesc key x l) : a = x ∨ a ∈ l :=
  List.mem_cons.mp ((insertDesc_perm key x l).mem_iff.mp h)

lemma insertDesc_pairwise {α : Type} (key : α → Nat) (x : α) (l : List α)
    (h : List.Pairwise (fun a b => key b ≤ key a) l) :
    List.Pairwise (fun a b => key b ≤ key a) (insertDesc key x l) := by
  induction l with
  | nil => simp [insertDesc]
  | cons y ys ih =>
    rcases List.pairwise_cons.mp h with ⟨hy, hys⟩
    unfold insertDesc
    by_cases hxy : key y ≤ key x
    · rw [if_pos hxy]
      refine List.pairwise_cons.mpr ⟨?_, h⟩
      intro b hb
      rcases List.mem_cons.mp hb with rfl | hb'
      · exact hxy
      · exact le_trans (hy b hb') hxy
    · rw [if_neg hxy]
      refine List.pairwise_cons.mpr ⟨?_, ih hys⟩
      intro b hb
      rcases mem_insertDesc key x b ys hb with rfl | hb'
      · exact le_of_lt (lt_of_not_le hxy)
      · exact hy b hb'

lemma sortDesc_pairwise {α : Type} (key : α → Nat) (l : List α) :
    List.Pairwise (fun a b => key b ≤ key a) (sortDesc key l) := by
  induction l with
  | nil => simp [sortDesc]
  | cons x xs ih => exact insertDesc_pairwise key x _ ih

/-- A trade never counts as both a win and a loss, so the two filtered
counts together never exceed the total count. -/
lemma winLose_le (l : List Trade) :
    (l.filter isWin).length + (l.filter isLoss).length ≤ l.length := by
  induction l with
  | nil => simp
  | cons t ts ih =>
    by_cases hw : isWin t = true
    · have h1 : (0 : ℚ) < t.profit_loss := by simpa [isWin] using hw
      have hl : isLoss t = false := by
        simp only [isLoss, decide_eq_false_iff_not]
        exact lt_asymm h1
      simp [List.filter_cons, hw, hl]
      omega
    · have hw' : isWin t = false := by
        cases h : isWin t
        · rfl
        · exact absurd h hw
      by_cases hl : isLoss t = true
      · simp [List.filter_cons, hw', hl]
        omega
      · have hl' : isLoss t = false := by
          cases h : isLoss t
          · rfl
          · exact absurd h hl
        simp [List.filter_cons, hw', hl']
        omega

/-- The win-rate formula `n ? (w / n) * 100 : 0` stays within `[0, 100]`
whenever `w ≤ n`. -/
lemma rate_bounds (w n : Nat) (hw : w ≤ n) :
    0 ≤ (if n = 0 then (0 : ℚ) else ((w : ℚ) / (n : ℚ)) * 100) ∧
      (if n = 0 then (0 : ℚ) else ((w : ℚ) / (n : ℚ)) * 100) ≤ 100 := by
  by_cases h : n = 0
  · rw [if_pos h]
    norm_num
  · rw [if_neg h]
    have hn : (0 : ℚ) < (n : ℚ) := by
      exact_mod_cast Nat.pos_of_ne_zero h
    have h1 : (w : ℚ) / (n : ℚ) ≤ 1 := (div_le_one hn).mpr (by exact_mod_cast hw)
    refine ⟨by positivity, ?_⟩
    calc ((w : ℚ) / (n : ℚ)) * 100 ≤ 1 * 100 :=
          mul_le_mul_of_nonneg_right h1 (by norm_num)
      _ = 100 := by norm_num

/-- Shared shape of the summary endpoint with no API key configured: the
backend is never contacted and the response is the 500 catch payload
whose `details` is one of the two fixed thrown messages. -/
lemma summary_nokey (sid uid : String) (db : Db) (b : BackendReply) :
    (summaryHandler sid uid db none b).backendCalled = false ∧
    (summaryHandler sid uid db none b).status = 500 ∧
    (summaryHandler sid uid db none b).error = some summaryGenericError ∧
    ((summaryHandler sid uid db none b).details = some keyMissingMsg ∨
      (summaryHandler sid uid db none b).details = some sessionNotFoundMsg) := by
  unfold summaryHandler
  cases lookupSession db sid uid with
  | none => exact ⟨rfl, rfl, rfl, Or.inr rfl⟩
  | some s => exact ⟨rfl, rfl, rfl, Or.inl rfl⟩

/-- Replace a trade's `profit_loss`, keeping every other field. -/
def setPL (t : Trade) (v : ℚ) : Trade :=
  ⟨t.id, t.session_id, t.margin, t.roi, t.entry_side, v, t.comments, t.created_at⟩

/-! ## Concrete inputs used by the claims -/

def msgCanYouLoad : String := "Can you load my recent trades"

def nameRecentTrades : String := "my recent trades"

def msgLoadBTC : String := "Load the BTC 5 Minute session"

def nameBTC : String := "BTC 5 Minute"

def msgSwitchScalping : String := "Switch to Scalping"

def nameScalping : String := "Scalping"

def sampleReply : String := "Here is my analysis."

def sampleUid : String := "user-1"

def promptSampleA : String := "system context A"

def promptSampleB : String := "system context B"

def sampleUserMsg : String := "hello"

/-! ## Claim theorems -/

/-- Claim C1 (counterexample): the claim says the message
"Can you load my recent trades" is classified as a general query and the
session-switch branch is not taken; on the code the pattern, anchored only
at the end of the message, does match it, the branch is taken with
extracted name "my recent trades", and the completion backend is not
contacted. -/
theorem claim1_counterexample :
    extractNameStr msgCanYouLoad = some nameRecentTrades ∧
    (handleSendMessage msgCanYouLoad true false true (some sampleReply)).switchCalls
      = [nameRecentTrades] ∧
    (handleSendMessage msgCanYouLoad true false true (some sampleReply)).backendCalled
      = false := by
  refine ⟨by decide, by decide, by decide⟩

/-- Claim C1 (amended): a switch verb appearing mid-sentence does match
whenever the rest of the message follows it to the end; in particular
"Can you load my recent trades" takes the session-switch branch with
extracted name "my recent trades" (ack appended, callback called once,
backend not contacted), not the general-query branch. -/
theorem claim1_amended :
    handleSendMessage msgCanYouLoad true false true (some sampleReply)
      = ⟨[⟨roleUser, msgCanYouLoad⟩, ⟨roleAssistant, ackMessage nameRecentTrades⟩],
          [nameRecentTrades], false, false⟩ := by
  decide

/-- Claim C2: with no focus session, the prompt displays at most the 5
most recent sessions and the 10 most recent trades (ordered by
`created_at` descending), while the statistics embedded in the same
prompt are computed over the full untruncated per-user trade
collection. -/
theorem claim2_truncated_display_full_stats (db : Db) (uid : String) :
    (buildChatPromptData db uid).recentSessions.length ≤ 5 ∧
    (buildChatPromptData db uid).recentTrades.length ≤ 10 ∧
    List.Pairwise (fun a b => b.created_at ≤ a.created_at)
      (buildChatPromptData db uid).recentSessions ∧
    List.Pairwise (fun a b => b.created_at ≤ a.created_at)
      (buildChatPromptData db uid).recentTrades ∧
    (∀ s ∈ (buildChatPromptData db uid).recentSessions,
      ∀ r ∈ (fetchSessions db uid).drop 5, r.created_at ≤ s.created_at) ∧
    (∀ t ∈ (buildChatPromptData db uid).recentTrades,
      ∀ u ∈ (fetchTrades db uid).drop 10, u.created_at ≤ t.created_at) ∧
    (buildChatPromptData db uid).totalSessions = (userSessions db uid).length ∧
    (buildChatPromptData db uid).totalTrades = (userTrades db uid).length ∧
    (buildChatPromptData db uid).totalProfit
      = ((userTrades db uid).map Trade.profit_loss).sum ∧
    (buildChatPromptData db uid).winningTrades
      = ((userTrades db uid).filter isWin).length ∧
    (buildChatPromptData db uid).losingTrades
      = ((userTrades db uid).filter isLoss).length := by
  have hpS : List.Pairwise (fun a b : TradingSession => b.created_at ≤ a.created_at)
      (fetchSessions db uid) :=
    sortDesc_pairwise TradingSession.created_at (userSessions db uid)
  have hpT : List.Pairwise (fun a b : Trade => b.created_at ≤ a.created_at)
      (fetchTrades db uid) :=
    sortDesc_pairwise Trade.created_at (userTrades db uid)
  refine ⟨?_, ?_, ?_, ?_, ?_, ?_, ?_, ?_, ?_, ?_, ?_⟩
  · show ((fetchSessions db uid).take 5).length ≤ 5
    rw [List.length_take]
    exact min_le_left _ _
  · show ((fetchTrades db uid).take 10).length ≤ 10
    rw [List.length_take]
    exact min_le_left _ _
  · exact List.Pairwise.sublist (List.take_sublist 5 _) hpS
  · exact List.Pairwise.sublist (List.take_sublist 10 _) hpT
  · have h2 := hpS
    rw [← List.take_append_drop 5 (fetchSessions db uid)] at h2
    intro s hs r hr
    exact (List.pairwise_append.mp h2).2.2 s hs r hr
  · have h2 := hpT
    rw [← List.take_append_drop 10 (fetchTrades db uid)] at h2
    intro t ht u hu
    exact (List.pairwise_append.mp h2).2.2 t ht u hu
  · exact (sortDesc_perm TradingSession.created_at (userSessions db uid)).length_eq
  · exact (sortDesc_perm Trade.created_at (userTrades db uid)).length_eq
  · exact ((sortDesc_perm Trade.created_at (userTrades db uid)).map Trade.profit_loss).sum_eq
  · exact ((sortDesc_perm Trade.created_at (userTrades db uid)).filter isWin).length_eq
  · exact ((sortDesc_perm Trade.created_at (userTrades db uid)).filter isLoss).length_eq

/-- Claim C3 (counterexample): the claim says the summary request uses a
larger max-token budget than the chat turn; on the code the summary uses
800 and the chat turn uses 1000, so it is not larger. -/
theorem claim3_counterexample :
    ¬ (chatCompletionRequest promptSampleA sampleUserMsg).max_tokens
        < (summaryCompletionRequest promptSampleB).max_tokens := by
  decide

/-- Claim C3 (amended): the Summary Generator's request uses a smaller
max-token budget (800) than the conversational chat turn's request
(1000). -/
theorem claim3_amended (s u v : String) :
    (summaryCompletionRequest v).max_tokens
      < (chatCompletionRequest s u).max_tokens := by
  show (800 : Nat) < 1000
  decide

/-- Claim C4: for every trade sequence, winningTrades + losingTrades ≤
totalTrades and the win rate lies in [0, 100], both for the summary
statistics and for the chat prompt statistics; moreover a trade with
profit_loss exactly 0 increments totalTrades while leaving both
winningTrades and losingTrades unchanged. -/
theorem claim4_stat_invariants (trades : List Trade) (db : Db) (uid : String) (t0 : Trade) :
    ((sessionStatsOf trades).winningTrades + (sessionStatsOf trades).losingTrades
        ≤ (sessionStatsOf trades).totalTrades) ∧
    (0 ≤ (sessionStatsOf trades).winRate ∧ (sessionStatsOf trades).winRate ≤ 100) ∧
    ((buildChatPromptData db uid).winningTrades + (buildChatPromptData db uid).losingTrades
        ≤ (buildChatPromptData db uid).totalTrades) ∧
    (0 ≤ (buildChatPromptData db uid).winRate ∧ (buildChatPromptData db uid).winRate ≤ 100) ∧
    ((sessionStatsOf (setPL t0 0 :: trades)).totalTrades
        = (sessionStatsOf trades).totalTrades + 1 ∧
      (sessionStatsOf (setPL t0 0 :: trades)).winningTrades
        = (sessionStatsOf trades).winningTrades ∧
      (sessionStatsOf (setPL t0 0 :: trades)).losingTrades
        = (sessionStatsOf trades).losingTrades) := by
  refine ⟨winLose_le trades, ?_, winLose_le (fetchTrades db uid), ?_, rfl, ?_, ?_⟩
  · exact rate_bounds _ _ (List.length_filter_le isWin trades)
  · exact rate_bounds _ _ (List.length_filter_le isWin (fetchTrades db uid))
  · show (List.filter isWin (setPL t0 0 :: trades)).length
        = (List.filter isWin trades).length
    rw [List.filter_cons]
    have h : isWin (setPL t0 0) = false := rfl
    rw [h]
    simp
  · show (List.filter isLoss (setPL t0 0 :: trades)).length
        = (List.filter isLoss trades).length
    rw [List.filter_cons]
    have h : isLoss (setPL t0 0) = false := rfl
    rw [h]
    simp

/-- Claim C5: aggregating the empty trade sequence yields exactly all-zero
statistics, with winRate and avgROI produced by the explicit zero-count
branch (numeric 0); likewise the chat prompt statistics over an empty
store. -/
theorem claim5_empty_aggregate :
    sessionStatsOf [] = ⟨0, 0, 0, 0, 0, 0, 0⟩ ∧
    buildChatPromptData ⟨[], []⟩ sampleUid = ⟨0, 0, 0, 0, 0, 0, [], []⟩ := by
  refine ⟨rfl, rfl⟩

/-- Claim C6: classifying "Load the BTC 5 Minute session" extracts
exactly "BTC 5 Minute" — the remainder after the verb phrase, without the
leading "the" and the trailing "session", verbatim — and the handler
takes the session-switch branch with that name. -/
theorem claim6_extracts_verbatim_name :
    extractNameStr msgLoadBTC = some nameBTC ∧
    (handleSendMessage msgLoadBTC true false true (some sampleReply)).switchCalls
      = [nameBTC] := by
  refine ⟨by decide, by decide⟩

/-- Claim C7: on a detected session-switch intent (pattern matched and
callback provided), the turn short-circuits: the transcript gains the
user message and an assistant acknowledgement embedding the extracted
name, the callback is invoked exactly once with that name, and the
completion backend is not contacted. -/
theorem claim7_switch_short_circuits (input : String) (backend : Option String) (g : String)
    (h1 : (jsTrim input).data ≠ [])
    (h2 : extractNameStr (jsTrim input) = some g) :
    handleSendMessage input true false true backend
      = ⟨[⟨roleUser, jsTrim input⟩, ⟨roleAssistant, ackMessage g⟩], [g], false, false⟩ := by
  have hc : ¬ ((jsTrim input).data = [] ∨ (true = false) ∨ (false = true)) := by
    rintro (h | h | h)
    · exact h1 h
    · exact Bool.noConfusion h
    · exact Bool.noConfusion h
  unfold handleSendMessage
  rw [if_neg hc, h2]

/-- Witness for C7 at the concrete message "Load the BTC 5 Minute
session". -/
theorem claim7_witness :
    ((jsTrim msgLoadBTC).data ≠ [] ∧ extractNameStr (jsTrim msgLoadBTC) = some nameBTC) ∧
    handleSendMessage msgLoadBTC true false true (some sampleReply)
      = ⟨[⟨roleUser, jsTrim msgLoadBTC⟩, ⟨roleAssistant, ackMessage nameBTC⟩],
          [nameBTC], false, false⟩ :=
  ⟨⟨by decide, by decide⟩,
    claim7_switch_short_circuits msgLoadBTC (some sampleReply) nameBTC
      (by decide) (by decide)⟩

/-- Claim C8: with no API key configured, neither endpoint contacts the
completion backend; each returns the 500 catch payload whose `error`
field is the endpoint's fixed generic string, and none of the strings a
client can receive contains the name of the missing credential
(`OPENAI_API_KEY`). -/
theorem claim8_missing_key_generic (msg : String) (sid : Option String)
    (uid : String) (db : Db) (b1 : BackendReply)
    (sid2 uid2 : String) (db2 : Db) (b2 : BackendReply) :
    ((chatHandler msg sid uid db none b1).backendCalled = false ∧
      (chatHandler msg sid uid db none b1).status = 500 ∧
      (chatHandler msg sid uid db none b1).error = some chatGenericError ∧
      (chatHandler msg sid uid db none b1).details = some keyMissingMsg) ∧
    ((summaryHandler sid2 uid2 db2 none b2).backendCalled = false ∧
      (summaryHandler sid2 uid2 db2 none b2).status = 500 ∧
      (summaryHandler sid2 uid2 db2 none b2).error = some summaryGenericError ∧
      ((summaryHandler sid2 uid2 db2 none b2).details = some keyMissingMsg ∨
        (summaryHandler sid2 uid2 db2 none b2).details = some sessionNotFoundMsg)) ∧
    (containsSub envKeyName.data chatGenericError.data = false ∧
      containsSub envKeyName.data keyMissingMsg.data = false ∧
      containsSub envKeyName.data summaryGenericError.data = false ∧
      containsSub envKeyName.data sessionNotFoundMsg.data = false) := by
  refine ⟨⟨rfl, rfl, rfl, rfl⟩, summary_nokey sid2 uid2 db2 b2,
    by decide, by decide, by decide, by decide⟩

/-- Claim C9: the chat endpoint accepts an optional `sessionId` but
ignores it entirely — the fetched data, prompt context and response are
identical whether or not it is supplied. -/
theorem claim9_sessionId_ignored (msg : String) (sid : String) (uid : String)
    (db : Db) (apiKey : Option String) (backend : BackendReply) :
    chatHandler msg (some sid) uid db apiKey backend
      = chatHandler msg none uid db apiKey backend := rfl

/-- Claim C10: when the `onSessionSwitch` prop is absent, a message that
matches the session-switch pattern is not short-circuited: no
acknowledgement is appended, no callback fires, and the message goes to
the completion backend as an ordinary general query. -/
theorem claim10_no_callback_forwards (input : String) (g t : String)
    (h1 : (jsTrim input).data ≠ [])
    (h2 : extractNameStr (jsTrim input) = some g) :
    handleSendMessage input true false false (some t)
      = ⟨[⟨roleUser, jsTrim input⟩, ⟨roleAssistant, t⟩], [], true, false⟩ := by
  have hc : ¬ ((jsTrim input).data = [] ∨ (true = false) ∨ (false = true)) := by
    rintro (h | h | h)
    · exact h1 h
    · exact Bool.noConfusion h
    · exact Bool.noConfusion h
  unfold handleSendMessage
  rw [if_neg hc, h2]

/-- Witness for C10 at the concrete message "Switch to Scalping". -/
theorem claim10_witness :
    ((jsTrim msgSwitchScalping).data ≠ [] ∧
      extractNameStr (jsTrim msgSwitchScalping) = some nameScalping) ∧
    handleSendMessage msgSwitchScalping true false false (some sampleReply)
      = ⟨[⟨roleUser, jsTrim msgSwitchScalping⟩, ⟨roleAssistant, sampleReply⟩],
          [], true, false⟩ :=
  ⟨⟨by decide, by decide⟩,
    claim10_no_callback_forwards msgSwitchScalping nameScalping sampleReply
      (by decide) (by decide)⟩

end LCF
